import Mathlib

/-!
Verification of the Situation Analysis Engine
(repository moying2026/clawdbot-skill-situation-monitor).

The TypeScript sources live in src/src/modules/news/types.ts (the file
concatenates the news-module types, the NewsModule class, the analysis-module
types and the AnalysisModule class).  Every definition below is a shallow
embedding of the corresponding TypeScript function; line numbers in the
comments refer to that file.  JavaScript strings are modelled as Lean
strings, JavaScript arrays as lists, Date values as natural-number
timestamps, and JavaScript numbers as exact rationals (the numeric claims
under scrutiny concern values far below any double-precision rounding
boundary).  Mutation of a shared array (push on an aliased array) is
modelled by returning the final contents of the mutated array alongside the
function result.
-/

namespace SituationMonitor

/-! ## JavaScript string primitives -/

/-- Model of JavaScript String.prototype.toLowerCase restricted to the
character-by-character mapping (ASCII letters are the only characters the
keyword dictionaries contain). -/
def jsToLower (s : String) : String := ⟨s.data.map Char.toLower⟩

/-- Tests whether the pattern is a leading segment of the text. -/
def leadsWith : List Char → List Char → Bool
  | [], _ => true
  | _ :: _, [] => false
  | a :: as, b :: bs => a == b && leadsWith as bs

/-- Tests whether the pattern occurs contiguously inside the text. -/
def hasSubstring : List Char → List Char → Bool
  | [], pat => pat.isEmpty
  | c :: cs, pat => leadsWith pat (c :: cs) || hasSubstring cs pat

/-- Model of JavaScript String.prototype.includes (substring containment). -/
def jsIncludes (s pat : String) : Bool := hasSubstring s.data pat.data

/-! ## News module: alert-level classification
(NewsModule.detectAlertLevel, types.ts lines 893-913). -/

/-- Alert levels.  The news-module NewsItem interface (line 544) only ever
carries none/low/medium/high; the analysis-module AlertLevel type (line 49)
additionally has critical, so the five-valued type is used throughout. -/
inductive AlertLevel where
  | none
  | low
  | medium
  | high
  | critical
  deriving DecidableEq, Repr

/-- Raw feed item as consumed by NewsModule.detectAlertLevel: the function
reads item.title and item.contentSnippet (missing fields default to the
empty string via the JavaScript or-guards); the NewsItem description
field is later filled from contentSnippet (line 832). -/
structure RawItem where
  title : String
  contentSnippet : String
  deriving DecidableEq, Repr

/-- Keyword tier for `high` (types.ts line 896). -/
def highAlertKeywords : List String := ["crisis", "attack", "emergency", "disaster", "war"]

/-- Keyword tier for `medium` (types.ts line 897). -/
def mediumAlertKeywords : List String := ["warning", "alert", "danger", "threat"]

/-- Keyword tier for `low` (types.ts line 898). -/
def lowAlertKeywords : List String := ["concern", "issue", "problem", "challenge"]

/-- Text scanned by detectAlertLevel (types.ts line 894). -/
def alertText (item : RawItem) : String :=
  jsToLower (item.title ++ " " ++ item.contentSnippet)

/-- NewsModule.detectAlertLevel (types.ts lines 893-913): three keyword
tiers checked from high down to low, the first tier with a hit returning
immediately, otherwise `none`. -/
def detectAlertLevel (item : RawItem) : AlertLevel :=
  let text := alertText item
  if highAlertKeywords.any (fun k => jsIncludes text k) then .high
  else if mediumAlertKeywords.any (fun k => jsIncludes text k) then .medium
  else if lowAlertKeywords.any (fun k => jsIncludes text k) then .low
  else .none

/-- Keyword alternatives of the single critical-tier alert rule present in
the repository: DEFAULT_ALERT_RULES entry crypto_hack (types.ts lines
437-448) with keyword regex "hack|exploit|breach|theft", alertLevel
critical.  The regex is an alternation of literals, so matching it is
substring containment of one of the four words. -/
def criticalRuleKeywords : List String := ["hack", "exploit", "breach", "theft"]

/-! ## News module: item processing
(NewsModule.processNewsItems / cleanText / enhanceKeywords,
types.ts lines 860-875 and 955-970). -/

/-- News item as used by the NewsModule and by AnalysisModule monitor
evaluation (types.ts lines 533-545).  Dates are natural-number timestamps. -/
structure NewsItem where
  id : String
  title : String
  description : String
  content : Option String
  url : String
  source : String
  category : String
  publishedAt : Nat
  region : Option String
  keywords : List String
  alertLevel : AlertLevel
  deriving DecidableEq, Repr

/-- Characters matched by the JavaScript regex class backslash-s
(whitespace): space, tab, line feed, carriage return, vertical tab,
form feed. -/
def isJsWhitespace (c : Char) : Bool :=
  c = ' ' || c = '\t' || c = '\n' || c = '\r' || c = '\x0b' || c = '\x0c'

/-- Replaces every maximal run of whitespace by a single space (the
regex replace of a whitespace run by a space in cleanText, line 872).
The flag records whether the previous character was whitespace. -/
def collapseWsAux : Bool → List Char → List Char
  | _, [] => []
  | prevWs, c :: cs =>
    if isJsWhitespace c then
      if prevWs then collapseWsAux true cs else ' ' :: collapseWsAux true cs
    else c :: collapseWsAux false cs

/-- Removes leading and trailing whitespace. -/
def jsTrim (l : List Char) : List Char :=
  (((l.dropWhile isJsWhitespace).reverse).dropWhile isJsWhitespace).reverse

/-- NewsModule.cleanText (types.ts lines 870-875): collapse whitespace
runs to one space, strip non-ASCII characters, trim. -/
def cleanText (s : String) : String :=
  ⟨jsTrim ((collapseWsAux false s.data).filter (fun c => c.toNat ≤ 0x7F))⟩

/-- First-occurrence deduplication, the JavaScript expression spreading a
Set built from an array back into an array (types.ts line 969). -/
def jsSetDedupAux (seen : List String) : List String → List String
  | [] => []
  | x :: xs =>
    if seen.contains x then jsSetDedupAux seen xs
    else x :: jsSetDedupAux (seen ++ [x]) xs

/-- Deduplicated copy of a list, keeping first occurrences. -/
def jsSetDedup (l : List String) : List String := jsSetDedupAux [] l

/-- Result of NewsModule.enhanceKeywords (types.ts lines 955-970).
The JavaScript function binds existingKeywords to item.keywords by
reference and pushes onto it, so the input item keywords array is mutated
in place; `returned` is the fresh deduplicated array the function returns,
`mutated` is the final contents of the aliased item.keywords array. -/
structure EnhanceResult where
  returned : List String
  mutated : List String
  deriving DecidableEq, Repr

/-- NewsModule.enhanceKeywords (types.ts lines 955-970).  Pushes the item
category onto the aliased keywords array when absent, then the region when
it is present, non-empty (JavaScript truthiness of the optional string) and
absent from the array, then returns a fresh deduplicated copy. -/
def enhanceKeywords (item : NewsItem) : EnhanceResult :=
  let ks1 := if item.keywords.contains item.category then item.keywords
             else item.keywords ++ [item.category]
  let ks2 := match item.region with
             | some r =>
               if r.isEmpty then ks1
               else if ks1.contains r then ks1
               else ks1 ++ [r]
             | Option.none => ks1
  { returned := jsSetDedup ks2, mutated := ks2 }

/-- Result of running NewsModule.processNewsItems on one item:
`output` is the returned spread copy, `input` is the argument item after
the call (its keywords array having been mutated through the alias inside
enhanceKeywords). -/
structure ProcessResult where
  output : NewsItem
  input : NewsItem
  deriving DecidableEq, Repr

/-- NewsModule.processNewsItems body for one item (types.ts lines
860-868): returns a spread copy with cleaned title and description and the
enhanced keyword list. -/
def processNewsItem (item : NewsItem) : ProcessResult :=
  let e := enhanceKeywords item
  { output := { item with
      title := cleanText item.title,
      description := cleanText item.description,
      keywords := e.returned },
    input := { item with keywords := e.mutated } }

/-- NewsModule.processNewsItems (types.ts lines 860-868) over a batch. -/
def processNewsItems (items : List NewsItem) : List ProcessResult :=
  items.map processNewsItem

/-! ## Analysis module: monitors and alerts
(AnalysisModule, types.ts lines 1552-2033). -/

/-- Monitor record (types.ts lines 1296-1305).  The alert threshold is a
fraction in the unit interval, kept exact as a rational. -/
structure Monitor where
  id : String
  query : String
  createdAt : Nat
  lastChecked : Nat
  isActive : Bool
  alertThreshold : ℚ
  checkInterval : Nat
  alertCount : Nat
  deriving DecidableEq, Repr

/-- Alert record (types.ts lines 1280-1291).  The source severity type is
the four-valued low/medium/high/critical; the five-valued AlertLevel is
used as a superset. -/
structure Alert where
  id : String
  monitorId : Option String
  query : Option String
  severity : AlertLevel
  message : String
  timestamp : Nat
  acknowledged : Bool
  deriving DecidableEq, Repr

/-- Number of news items whose lowered title-plus-description contains the
lowered monitor query (the counting loop of AnalysisModule.evaluateMonitor,
types.ts lines 1972-1981). -/
def monitorMatchCount (m : Monitor) (news : List NewsItem) : Nat :=
  (news.filter (fun item =>
    jsIncludes (jsToLower (item.title ++ " " ++ item.description)) (jsToLower m.query))).length

/-- Match fraction of AnalysisModule.evaluateMonitor (types.ts line 1984):
match count divided by the larger of the batch size and one. -/
def matchFraction (m : Monitor) (news : List NewsItem) : ℚ :=
  (monitorMatchCount m news : ℚ) / ((max news.length 1 : ℕ) : ℚ)

/-- AnalysisModule.evaluateMonitor (types.ts lines 1968-1986): true when
the match fraction reaches the monitor alert threshold. -/
def evaluateMonitor (m : Monitor) (news : List NewsItem) : Bool :=
  decide (m.alertThreshold ≤ matchFraction m news)

/-- Message text of a monitor alert (types.ts line 1840). -/
def monitorAlertMessage (q : String) : String :=
  "Monitor \"" ++ q ++ "\" triggered an alert"

/-- One iteration of the AnalysisModule.checkMonitors loop (types.ts lines
1823-1851) on one monitor: an inactive monitor is skipped; an active
monitor whose evaluation succeeds has its alertCount incremented and its
lastChecked set to the current time, and one alert referencing it is
created with the identifier the id generator produced. -/
def checkMonitorStep (gid : String) (now : Nat) (news : List NewsItem) (m : Monitor) :
    Monitor × List Alert :=
  if !m.isActive then (m, [])
  else if evaluateMonitor m news then
    ({ m with alertCount := m.alertCount + 1, lastChecked := now },
     [{ id := gid,
        monitorId := some m.id,
        query := some m.query,
        severity := .medium,
        message := monitorAlertMessage m.query,
        timestamp := now,
        acknowledged := false }])
  else (m, [])

/-- The checkMonitors loop over the monitor list.  AnalysisModule.generateId
(types.ts lines 2030-2032) draws from Math.random; the random source is
modelled as an oracle stream of id strings, indexed by how many alerts have
been created so far. -/
def checkMonitorsFrom (r : Nat → String) (k : Nat) (now : Nat) (news : List NewsItem) :
    List Monitor → List Monitor × List Alert
  | [] => ([], [])
  | m :: ms =>
    let step := checkMonitorStep (r k) now news m
    let rest := checkMonitorsFrom r (k + step.2.length) now news ms
    (step.1 :: rest.1, step.2 ++ rest.2)

/-- AnalysisModule.checkMonitors (types.ts lines 1811-1856) restricted to
its monitor-evaluation loop, acting on a given news batch: returns the
updated monitor list and the alerts appended during the run. -/
def checkMonitors (r : Nat → String) (now : Nat) (news : List NewsItem)
    (monitors : List Monitor) : List Monitor × List Alert :=
  checkMonitorsFrom r 0 now news monitors

/-- AnalysisModule.removeMonitor (types.ts lines 1796-1806): filters the
monitor list by id and reports through the returned message whether
anything was removed. -/
def removeMonitor (monitors : List Monitor) (monitorId : String) :
    List Monitor × String :=
  let filtered := monitors.filter (fun m => m.id != monitorId)
  if filtered.length < monitors.length then
    (filtered, "Monitor " ++ monitorId ++ " removed successfully.")
  else
    (filtered, "Monitor " ++ monitorId ++ " not found.")

/-- JavaScript Math.round: round half away from zero; for the non-negative
arguments produced here this is the floor of the argument plus one half. -/
def jsRound (x : ℚ) : ℤ := ⌊x + 1/2⌋

/-- AnalysisModule.calculateConfidence (types.ts lines 2007-2028), with the
JavaScript float arithmetic carried out exactly over the rationals. -/
def calculateConfidence (patterns trends risks opportunities : ℕ) : ℤ :=
  let totalItems := patterns + trends + risks + opportunities
  if totalItems = 0 then 0
  else
    let patternWeight : ℚ := (patterns : ℚ) * 0.3
    let trendWeight : ℚ := (trends : ℚ) * 0.4
    let riskWeight : ℚ := (risks : ℚ) * 0.2
    let opportunityWeight : ℚ := (opportunities : ℚ) * 0.1
    let weightedTotal := patternWeight + trendWeight + riskWeight + opportunityWeight
    let maxPossible : ℚ := (totalItems : ℚ) * 0.4
    min 100 (jsRound (weightedTotal / maxPossible * 100))

/-- The entries enhanceKeywords appends in place to the item keywords
array (derived bookkeeping for the mutation of the aliased array): the
category when absent, then the region when present, non-empty and still
absent after the category push. -/
def enhanceAdded (item : NewsItem) : List String :=
  let cat := if item.keywords.contains item.category then [] else [item.category]
  let ks1 := item.keywords ++ cat
  let reg := match item.region with
             | some r => if r.isEmpty then [] else if ks1.contains r then [] else [r]
             | Option.none => []
  cat ++ reg

/-- Every field of an alert except the generated identifier. -/
def alertContent (a : Alert) : Option String × Option String × AlertLevel × String × Nat × Bool :=
  (a.monitorId, a.query, a.severity, a.message, a.timestamp, a.acknowledged)

/-! ## Correlation analysis
The CorrelationAnalyzer class is imported from the strategies module
(types.ts line 1539), whose source is not among the provided files; only
the CorrelationMatrix interface (types.ts lines 1212-1225) is.  The
computation below is therefore modelled from the spec. -/

noncomputable section

/-- Modelled from the spec: arithmetic mean of a return series, the first
ingredient of the Pearson coefficient the spec prescribes for the missing
CorrelationAnalyzer implementation. -/
def seriesMean (xs : List ℝ) : ℝ := xs.sum / xs.length

/-- Modelled from the spec: a series shifted by its mean. -/
def centered (xs : List ℝ) : List ℝ := xs.map (fun x => x - seriesMean xs)

/-- Modelled from the spec: sum of pairwise products over the common
length of two series. -/
def dotProd : List ℝ → List ℝ → ℝ
  | x :: xs, y :: ys => x * y + dotProd xs ys
  | _, _ => 0

/-- Modelled from the spec: Pearson correlation coefficient of two series
over their overlapping window (the common initial segment), covariance
divided by the product of the standard deviations. -/
def pearson (xs ys : List ℝ) : ℝ :=
  let n := min xs.length ys.length
  let cx := centered (xs.take n)
  let cy := centered (ys.take n)
  dotProd cx cy / (Real.sqrt (dotProd cx cx) * Real.sqrt (dotProd cy cy))

/-- Modelled from the spec: the correlation matrix over the requested
asset series, one Pearson coefficient per cell. -/
def correlationMatrix (series : List (List ℝ)) : List (List ℝ) :=
  series.map (fun x => series.map (fun y => pearson x y))

/-- Concrete pair of return series used to instantiate the correlation
matrix properties. -/
def wSeries : List (List ℝ) := [[1, 2], [1, 3]]

end

/-! ## Concrete inputs used by the witnesses and counterexamples -/

/-- News item with the given title and neutral remaining fields. -/
def simpleNews (t : String) : NewsItem :=
  { id := "", title := t, description := "", content := Option.none, url := "", source := "",
    category := "news", publishedAt := 0, region := Option.none, keywords := [],
    alertLevel := AlertLevel.none }

/-- Batch of ten items of which exactly eight mention bitcoin in the
title (one of them capitalised, exercising case-insensitivity). -/
def c1Batch : List NewsItem :=
  [simpleNews "bitcoin rallies", simpleNews "Bitcoin falls", simpleNews "bitcoin steady",
   simpleNews "bitcoin etf inflows", simpleNews "bitcoin mining news", simpleNews "bitcoin hits high",
   simpleNews "bitcoin dips", simpleNews "bitcoin outlook", simpleNews "weather today",
   simpleNews "sports results"]

/-- Active monitor for the query bitcoin with the default 0.7 threshold
(types.ts line 1750). -/
def c1Monitor : Monitor :=
  { id := "mon1", query := "bitcoin", createdAt := 0, lastChecked := 0, isActive := true,
    alertThreshold := 0.7, checkInterval := 3600, alertCount := 0 }

/-- The same monitor with threshold 0.9. -/
def c1MonitorStrict : Monitor := { c1Monitor with alertThreshold := 0.9 }

/-- An inactive monitor. -/
def wMonitorB : Monitor :=
  { id := "m2", query := "gold", createdAt := 0, lastChecked := 0, isActive := false,
    alertThreshold := 0.7, checkInterval := 3600, alertCount := 0 }

/-- An active monitor named m1, companion of the inactive one in the
removal examples. -/
def wMonitorA : Monitor :=
  { id := "m1", query := "oil", createdAt := 0, lastChecked := 0, isActive := true,
    alertThreshold := 0.7, checkInterval := 3600, alertCount := 0 }

/-- News item whose keywords array is empty and whose category is tech,
exhibiting the in-place keyword mutation. -/
def c6Item : NewsItem :=
  { id := "n1", title := "t", description := "d", content := Option.none, url := "u",
    source := "s", category := "tech", publishedAt := 0, region := Option.none,
    keywords := [], alertLevel := AlertLevel.none }

/-- Two distinct id-generation oracles standing for two runs of
Math.random. -/
def oracleA : Nat → String := fun _ => "aaaa0000"

/-- Second id-generation oracle. -/
def oracleB : Nat → String := fun _ => "bbbb1111"

/-! ## Theorems -/

/-- C3: an item whose scanned text (lowered title and content snippet, the
text the classifier reads and from which the item description is filled)
contains no alert keyword of any tier is assigned alert level none by
NewsModule.detectAlertLevel. -/
theorem C3_no_keyword_assigns_level_none (item : RawItem)
    (h : ∀ k ∈ highAlertKeywords ++ mediumAlertKeywords ++ lowAlertKeywords,
      jsIncludes (alertText item) k = false) :
    detectAlertLevel item = AlertLevel.none := by
  have hA : highAlertKeywords.any (fun k => jsIncludes (alertText item) k) = false := by
    simp only [List.any_eq_false]
    intro k hk
    simp [h k (by simp [hk])]
  have hB : mediumAlertKeywords.any (fun k => jsIncludes (alertText item) k) = false := by
    simp only [List.any_eq_false]
    intro k hk
    simp [h k (by simp [hk])]
  have hC : lowAlertKeywords.any (fun k => jsIncludes (alertText item) k) = false := by
    simp only [List.any_eq_false]
    intro k hk
    simp [h k (by simp [hk])]
  simp [detectAlertLevel, hA, hB, hC]

/-- Witness for C3 at a concrete keyword-free item. -/
theorem C3_no_keyword_assigns_level_none_witness :
    (∀ k ∈ highAlertKeywords ++ mediumAlertKeywords ++ lowAlertKeywords,
      jsIncludes (alertText { title := "Sunny day", contentSnippet := "picnic by the lake" }) k
        = false)
    ∧ detectAlertLevel { title := "Sunny day", contentSnippet := "picnic by the lake" }
        = AlertLevel.none :=
  ⟨by decide, C3_no_keyword_assigns_level_none _ (by decide)⟩

/-- C2 counterexample: the item text matches a critical-tier alert keyword
of the repository (hack, from the only critical-tier rule in
DEFAULT_ALERT_RULES), yet NewsModule.detectAlertLevel does not assign
critical: its tiers stop at high, and this text is assigned none. -/
theorem C2_critical_tier_refuted :
    criticalRuleKeywords.any
        (fun k => jsIncludes (alertText { title := "Exchange hack reported", contentSnippet := "" }) k)
      = true
    ∧ detectAlertLevel { title := "Exchange hack reported", contentSnippet := "" }
        ≠ AlertLevel.critical := by
  decide

/-- C2 amended: the classifier has three keyword tiers, high over medium
over low, checked in descending severity order with the first hit winning;
an item matching a high-tier keyword is assigned high no matter what lower
tiers also match, and the critical level is never assigned. -/
theorem C2_descending_first_tier_wins (item : RawItem) :
    detectAlertLevel item ≠ AlertLevel.critical
    ∧ (highAlertKeywords.any (fun k => jsIncludes (alertText item) k) = true →
        detectAlertLevel item = AlertLevel.high) := by
  constructor
  · simp only [detectAlertLevel]
    split
    · simp
    · split
      · simp
      · split <;> simp
  · intro h
    simp [detectAlertLevel, h]

/-- Witness for the amended C2 at an item matching a high-tier, a
medium-tier and a low-tier keyword at once. -/
theorem C2_descending_first_tier_wins_witness :
    highAlertKeywords.any
        (fun k => jsIncludes (alertText { title := "war warning", contentSnippet := "a concern" }) k)
      = true
    ∧ detectAlertLevel { title := "war warning", contentSnippet := "a concern" }
        = AlertLevel.high :=
  ⟨by decide, (C2_descending_first_tier_wins _).2 (by decide)⟩

/-- C4: removing an absent monitor id returns the not-found message with
the monitor list unchanged (removeMonitor is a total function, so nothing
is thrown); removing a present id reports success, keeps exactly the
monitors with a different id, and no monitor with the removed id
survives. -/
theorem C4_remove_monitor (monitors : List Monitor) (mid : String) :
    ((∀ m ∈ monitors, m.id ≠ mid) →
      removeMonitor monitors mid = (monitors, "Monitor " ++ mid ++ " not found."))
    ∧ ((∃ m ∈ monitors, m.id = mid) →
      (removeMonitor monitors mid).2 = "Monitor " ++ mid ++ " removed successfully."
        ∧ (∀ m ∈ (removeMonitor monitors mid).1, m ∈ monitors ∧ m.id ≠ mid)
        ∧ (∀ m ∈ monitors, m.id ≠ mid → m ∈ (removeMonitor monitors mid).1)) := by
  constructor
  · intro h
    have hfix : monitors.filter (fun m => m.id != mid) = monitors :=
      List.filter_eq_self.mpr (fun m hm => by simp [h m hm])
    simp [removeMonitor, hfix]
  · intro h
    obtain ⟨m0, hm0, hid⟩ := h
    have hlt : (monitors.filter (fun m => m.id != mid)).length < monitors.length := by
      apply List.length_filter_lt_length_iff_exists.mpr
      exact ⟨m0, hm0, by simp [hid]⟩
    refine ⟨by simp [removeMonitor, hlt], ?_, ?_⟩
    · intro m hm
      rw [removeMonitor] at hm
      simp only [hlt, if_pos] at hm
      have := List.mem_filter.mp hm
      exact ⟨this.1, by simpa using this.2⟩
    · intro m hm hne
      rw [removeMonitor]
      simp only [hlt, if_pos]
      exact List.mem_filter.mpr ⟨hm, by simp [hne]⟩

/-- Witness for C4: removal of an absent id leaves the two-monitor list
untouched and reports not found; removal of a present id reports
success. -/
theorem C4_remove_monitor_witness :
    removeMonitor [wMonitorA, wMonitorB] "zz" = ([wMonitorA, wMonitorB], "Monitor " ++ "zz" ++ " not found.")
    ∧ (removeMonitor [wMonitorA, wMonitorB] "m1").2 = "Monitor " ++ "m1" ++ " removed successfully." :=
  ⟨(C4_remove_monitor [wMonitorA, wMonitorB] "zz").1 (by decide),
   ((C4_remove_monitor [wMonitorA, wMonitorB] "m1").2 (by decide)).1⟩

/-- C5: on each checkMonitors iteration an inactive monitor is skipped
outright (unchanged, no alert), while an active one is evaluated and
raises an alert exactly when its evaluation succeeds; the evaluation reads
neither checkInterval nor lastChecked, so its outcome is invariant under
any change of those two fields. -/
theorem C5_interval_not_gating (m : Monitor) (news : List NewsItem) (gid : String)
    (now ci lc : Nat) :
    (m.isActive = false → checkMonitorStep gid now news m = (m, []))
    ∧ (m.isActive = true →
        ((checkMonitorStep gid now news m).2 ≠ [] ↔ evaluateMonitor m news = true)
        ∧ evaluateMonitor { m with checkInterval := ci, lastChecked := lc } news
            = evaluateMonitor m news) := by
  constructor
  · intro h
    simp [checkMonitorStep, h]
  · intro h
    refine ⟨?_, rfl⟩
    by_cases he : evaluateMonitor m news <;> simp [checkMonitorStep, h, he]

/-- Witness for C5: the inactive monitor is skipped on a batch its query
matches, and the active monitor evaluation ignores a change of
checkInterval and lastChecked. -/
theorem C5_interval_not_gating_witness :
    (wMonitorB.isActive = false
      ∧ checkMonitorStep "a1" 5 c1Batch wMonitorB = (wMonitorB, []))
    ∧ (c1Monitor.isActive = true
      ∧ evaluateMonitor { c1Monitor with checkInterval := 42, lastChecked := 99 } c1Batch
          = evaluateMonitor c1Monitor c1Batch) :=
  ⟨⟨rfl, (C5_interval_not_gating wMonitorB c1Batch "a1" 5 42 99).1 rfl⟩,
   ⟨rfl, ((C5_interval_not_gating c1Monitor c1Batch "a1" 5 42 99).2 rfl).2⟩⟩

/-- C10: monitor evaluation is total on the empty batch; the denominator
max of the batch size and one makes the match fraction zero there, so a
monitor with a positive alert threshold never fires on an empty batch. -/
theorem C10_empty_batch_never_fires (m : Monitor) :
    matchFraction m [] = 0
    ∧ (0 < m.alertThreshold → evaluateMonitor m [] = false) := by
  have h0 : matchFraction m [] = 0 := by
    simp [matchFraction, monitorMatchCount]
  refine ⟨h0, fun hpos => ?_⟩
  simp only [evaluateMonitor, h0, decide_eq_false_iff_not]
  exact not_le.mpr hpos

/-- Witness for C10 at the default-threshold monitor. -/
theorem C10_empty_batch_never_fires_witness :
    (0:ℚ) < c1Monitor.alertThreshold ∧ evaluateMonitor c1Monitor [] = false := by
  have hpos : (0:ℚ) < c1Monitor.alertThreshold := by
    show (0:ℚ) < 0.7
    norm_num
  exact ⟨hpos, (C10_empty_batch_never_fires c1Monitor).2 hpos⟩

/-- C1: for an active monitor on any news batch, one checkMonitors
iteration raises exactly one alert, increments alertCount by one and sets
lastChecked to the current time precisely when the match fraction (count
of items whose lowered title plus description contains the lowered query,
divided by the larger of the batch size and one) reaches the alert
threshold; below the threshold the monitor is returned unchanged with no
alert. -/
theorem C1_monitor_evaluation (m : Monitor) (news : List NewsItem) (gid : String) (now : Nat)
    (hact : m.isActive = true) :
    (((checkMonitorStep gid now news m).2.length = 1
        ∧ (checkMonitorStep gid now news m).1.alertCount = m.alertCount + 1
        ∧ (checkMonitorStep gid now news m).1.lastChecked = now)
      ↔ m.alertThreshold ≤ matchFraction m news)
    ∧ (¬ m.alertThreshold ≤ matchFraction m news →
        checkMonitorStep gid now news m = (m, [])) := by
  by_cases h : m.alertThreshold ≤ matchFraction m news
  · exact ⟨by simp [checkMonitorStep, hact, evaluateMonitor, h], fun hn => absurd h hn⟩
  · exact ⟨by simp [checkMonitorStep, hact, evaluateMonitor, h],
      fun _ => by simp [checkMonitorStep, hact, evaluateMonitor, h]⟩

/-- Witness for C1, the spec example: on a batch of ten items of which
eight match the query, the 0.7-threshold monitor raises exactly one alert
and its alertCount grows by one, while the 0.9-threshold monitor raises
none and is unchanged. -/
theorem C1_monitor_evaluation_witness :
    c1Monitor.isActive = true
    ∧ (checkMonitorStep "a1" 5 c1Batch c1Monitor).2.length = 1
    ∧ (checkMonitorStep "a1" 5 c1Batch c1Monitor).1.alertCount = c1Monitor.alertCount + 1
    ∧ checkMonitorStep "a1" 5 c1Batch c1MonitorStrict = (c1MonitorStrict, []) := by
  have hcount : monitorMatchCount c1Monitor c1Batch = 8 := by decide
  have hcount2 : monitorMatchCount c1MonitorStrict c1Batch = 8 := by decide
  have hlen : c1Batch.length = 10 := by decide
  have hfrac : matchFraction c1Monitor c1Batch = 8/10 := by
    rw [matchFraction, hcount, hlen]
    norm_num
  have hfrac2 : matchFraction c1MonitorStrict c1Batch = 8/10 := by
    rw [matchFraction, hcount2, hlen]
    norm_num
  have hle : c1Monitor.alertThreshold ≤ matchFraction c1Monitor c1Batch := by
    rw [hfrac]
    show (0.7:ℚ) ≤ 8/10
    norm_num
  have hnle : ¬ c1MonitorStrict.alertThreshold ≤ matchFraction c1MonitorStrict c1Batch := by
    rw [hfrac2]
    show ¬ (0.9:ℚ) ≤ 8/10
    norm_num
  have h1 := (C1_monitor_evaluation c1Monitor c1Batch "a1" 5 rfl).1.mpr hle
  have h2 := (C1_monitor_evaluation c1MonitorStrict c1Batch "a1" 5 rfl).2 hnle
  exact ⟨rfl, h1.1, h1.2.1, h2⟩

/-- The mutated keywords array is the original array with the appended
entries at the end. -/
theorem enhance_mutated_eq (item : NewsItem) :
    (enhanceKeywords item).mutated = item.keywords ++ enhanceAdded item := by
  simp only [enhanceKeywords, enhanceAdded]
  by_cases hc : item.category ∈ item.keywords
  · rcases item.region with _ | r
    · simp [hc]
    · by_cases he : r.isEmpty
      · simp [hc, he]
      · by_cases hr : r ∈ item.keywords <;> simp [hc, he, hr]
  · rcases item.region with _ | r
    · simp [hc]
    · by_cases he : r.isEmpty
      · simp [hc, he]
      · by_cases hr1 : r ∈ item.keywords
        · simp [hc, he, hr1]
        · by_cases hr2 : r = item.category <;> simp [hc, he, hr1, hr2]

/-- Each appended entry is the item category or its region. -/
theorem enhanceAdded_mem (item : NewsItem) :
    ∀ k ∈ enhanceAdded item, k = item.category ∨ item.region = some k := by
  intro k hk
  simp only [enhanceAdded] at hk
  by_cases hc : item.category ∈ item.keywords <;>
    rcases hreg : item.region with _ | r <;> rw [hreg] at hk
  · simp [hc] at hk
  · by_cases he : r.isEmpty
    · simp [hc, he] at hk
    · by_cases hr : r ∈ item.keywords
      · simp [hc, he, hr] at hk
      · simp [hc, he, hr] at hk
        exact Or.inr (by rw [hk])
  · simp [hc] at hk
    exact Or.inl hk
  · by_cases he : r.isEmpty
    · simp [hc, he] at hk
      exact Or.inl hk
    · by_cases hr1 : r ∈ item.keywords
      · simp [hc, he, hr1] at hk
        exact Or.inl hk
      · by_cases hr2 : r = item.category
        · simp [hc, he, hr1, hr2] at hk
          exact Or.inl hk
        · simp [hc, he, hr1, hr2] at hk
          rcases hk with h | h
          · exact Or.inl h
          · exact Or.inr (by rw [h])

/-- Nothing is appended exactly when the category is already a keyword and
the region, when present and non-empty, is one too. -/
theorem enhanceAdded_eq_nil_iff (item : NewsItem) :
    enhanceAdded item = [] ↔
      (item.category ∈ item.keywords
        ∧ ∀ r, item.region = some r → r.isEmpty = false → r ∈ item.keywords) := by
  by_cases hc : item.category ∈ item.keywords
  · rcases hreg : item.region with _ | r
    · have hval : enhanceAdded item = [] := by simp [enhanceAdded, hc, hreg]
      rw [hval]
      simp [hc]
    · by_cases he : r.isEmpty
      · have hval : enhanceAdded item = [] := by simp [enhanceAdded, hc, hreg, he]
        rw [hval]
        refine iff_of_true rfl ⟨hc, fun r0 h0 hne => ?_⟩
        cases h0
        rw [he] at hne
        cases hne
      · by_cases hr : r ∈ item.keywords
        · have hval : enhanceAdded item = [] := by simp [enhanceAdded, hc, hreg, he, hr]
          rw [hval]
          exact iff_of_true rfl ⟨hc, fun r0 h0 _ => by cases h0; exact hr⟩
        · have hval : enhanceAdded item = [r] := by simp [enhanceAdded, hc, hreg, he, hr]
          rw [hval]
          exact iff_of_false (by simp) (fun h => hr (h.2 r rfl (by simpa using he)))
  · constructor
    · intro h
      exfalso
      have : item.category ∈ enhanceAdded item := by
        simp [enhanceAdded, hc]
      rw [h] at this
      cases this
    · intro h
      exact absurd h.1 hc

/-- C6 counterexample: running processNewsItems over an item with an empty
keywords array and category tech extends the keywords array of the input
item in place to contain tech, so the input is not left unchanged. -/
theorem C6_no_mutation_refuted :
    (processNewsItem c6Item).input.keywords ≠ c6Item.keywords
    ∧ (processNewsItem c6Item).input.keywords = ["tech"]
    ∧ c6Item.keywords = [] := by
  decide

/-- C6 amended: processNewsItems returns annotated copies, but
enhanceKeywords pushes onto the aliased keywords array of the input item,
so that array is extended in place: the original list is an initial
segment of the new contents, every appended entry is the item category or
region, the array is unchanged exactly when there was nothing to append,
every other field of the input item is untouched, and the returned copy
carries the deduplicated extended list. -/
theorem C6_inplace_keyword_extension (item : NewsItem) :
    (∃ added, (processNewsItem item).input.keywords = item.keywords ++ added)
    ∧ (∀ k ∈ (processNewsItem item).input.keywords,
        k ∈ item.keywords ∨ k = item.category ∨ item.region = some k)
    ∧ ((processNewsItem item).input.keywords = item.keywords ↔
        (item.category ∈ item.keywords
          ∧ ∀ r, item.region = some r → r.isEmpty = false → r ∈ item.keywords))
    ∧ (processNewsItem item).input.id = item.id
    ∧ (processNewsItem item).input.title = item.title
    ∧ (processNewsItem item).input.description = item.description
    ∧ (processNewsItem item).input.category = item.category
    ∧ (processNewsItem item).input.region = item.region
    ∧ (processNewsItem item).output.keywords
        = jsSetDedup ((processNewsItem item).input.keywords) := by
  have hmut : (processNewsItem item).input.keywords = item.keywords ++ enhanceAdded item :=
    enhance_mutated_eq item
  refine ⟨⟨enhanceAdded item, hmut⟩, ?_, ?_, rfl, rfl, rfl, rfl, rfl, rfl⟩
  · intro k hk
    rw [hmut] at hk
    rcases List.mem_append.mp hk with h | h
    · exact Or.inl h
    · exact Or.inr (enhanceAdded_mem item k h)
  · rw [hmut, ← enhanceAdded_eq_nil_iff]
    constructor
    · intro h
      have := congrArg List.length h
      simp only [List.length_append] at this
      exact List.length_eq_zero.mp (by omega)
    · intro h
      simp [h]

/-- Witness for the amended C6 at the concrete item: the input keywords
array was extended, and the new entry tech is the item category. -/
theorem C6_inplace_keyword_extension_witness :
    (∃ added, (processNewsItem c6Item).input.keywords = c6Item.keywords ++ added)
    ∧ ("tech" ∈ (processNewsItem c6Item).input.keywords
        ∧ ("tech" ∈ c6Item.keywords ∨ "tech" = c6Item.category ∨ c6Item.region = some "tech")) := by
  have h := C6_inplace_keyword_extension c6Item
  exact ⟨h.1, ⟨by decide, h.2.1 "tech" (by decide)⟩⟩

/-- One checkMonitors iteration yields the same monitor update and the
same id-free alert content whichever id the generator returns. -/
theorem checkMonitorStep_oracle_irrelevant (g1 g2 : String) (now : Nat)
    (news : List NewsItem) (m : Monitor) :
    (checkMonitorStep g1 now news m).1 = (checkMonitorStep g2 now news m).1
    ∧ (checkMonitorStep g1 now news m).2.map alertContent
        = (checkMonitorStep g2 now news m).2.map alertContent := by
  by_cases ha : m.isActive <;> by_cases he : evaluateMonitor m news <;>
    simp [checkMonitorStep, ha, he, alertContent]

/-- The checkMonitors loop yields the same monitor updates and the same
id-free alert contents for any two id oracles and counter positions. -/
theorem checkMonitorsFrom_oracle_irrelevant (r1 r2 : Nat → String) (now : Nat)
    (news : List NewsItem) (ms : List Monitor) :
    ∀ k1 k2,
      (checkMonitorsFrom r1 k1 now news ms).1 = (checkMonitorsFrom r2 k2 now news ms).1
      ∧ (checkMonitorsFrom r1 k1 now news ms).2.map alertContent
          = (checkMonitorsFrom r2 k2 now news ms).2.map alertContent := by
  induction ms with
  | nil =>
    intro k1 k2
    simp [checkMonitorsFrom]
  | cons m ms ih =>
    intro k1 k2
    have hstep := checkMonitorStep_oracle_irrelevant (r1 k1) (r2 k2) now news m
    simp only [checkMonitorsFrom]
    constructor
    · rw [hstep.1, (ih _ _).1]
    · simp only [List.map_append]
      rw [hstep.2, (ih _ _).2]

/-- C8 amended: the monitor-evaluation stage of analyze is a pure function
of the frozen input batch except for the generated identifiers: for any
two runs of the id source, the updated monitors agree and the produced
alerts agree on every field other than the id. -/
theorem C8_deterministic_except_ids (r1 r2 : Nat → String) (now : Nat)
    (news : List NewsItem) (monitors : List Monitor) :
    (checkMonitors r1 now news monitors).1 = (checkMonitors r2 now news monitors).1
    ∧ (checkMonitors r1 now news monitors).2.map alertContent
        = (checkMonitors r2 now news monitors).2.map alertContent :=
  checkMonitorsFrom_oracle_irrelevant r1 r2 now news monitors 0 0

/-- C8 counterexample: two runs of the monitor stage of analyze on the
same frozen batch, differing only in the Math.random draws behind
AnalysisModule.generateId, produce different alert lists although every
timestamp agrees — the ids differ — so the results are not identical
except timestamps. -/
theorem C8_identical_except_timestamps_refuted :
    (checkMonitors oracleA 0 c1Batch [c1Monitor]).2
        ≠ (checkMonitors oracleB 0 c1Batch [c1Monitor]).2
    ∧ (checkMonitors oracleA 0 c1Batch [c1Monitor]).2.map Alert.timestamp
        = (checkMonitors oracleB 0 c1Batch [c1Monitor]).2.map Alert.timestamp
    ∧ (checkMonitors oracleA 0 c1Batch [c1Monitor]).2.map Alert.id = ["aaaa0000"]
    ∧ (checkMonitors oracleB 0 c1Batch [c1Monitor]).2.map Alert.id = ["bbbb1111"] := by
  have heval : evaluateMonitor c1Monitor c1Batch = true := by
    have hcount : monitorMatchCount c1Monitor c1Batch = 8 := by decide
    have hlen : c1Batch.length = 10 := by decide
    have hfrac : matchFraction c1Monitor c1Batch = 8/10 := by
      rw [matchFraction, hcount, hlen]
      norm_num
    simp only [evaluateMonitor, hfrac, decide_eq_true_eq]
    show (0.7:ℚ) ≤ 8/10
    norm_num
  have hact : c1Monitor.isActive = true := rfl
  have hA : checkMonitors oracleA 0 c1Batch [c1Monitor]
      = ([{ c1Monitor with alertCount := c1Monitor.alertCount + 1, lastChecked := 0 }],
         [{ id := "aaaa0000", monitorId := some c1Monitor.id, query := some c1Monitor.query,
            severity := .medium, message := monitorAlertMessage c1Monitor.query,
            timestamp := 0, acknowledged := false }]) := by
    simp [checkMonitors, checkMonitorsFrom, checkMonitorStep, hact, heval, oracleA]
  have hB : checkMonitors oracleB 0 c1Batch [c1Monitor]
      = ([{ c1Monitor with alertCount := c1Monitor.alertCount + 1, lastChecked := 0 }],
         [{ id := "bbbb1111", monitorId := some c1Monitor.id, query := some c1Monitor.query,
            severity := .medium, message := monitorAlertMessage c1Monitor.query,
            timestamp := 0, acknowledged := false }]) := by
    simp [checkMonitors, checkMonitorsFrom, checkMonitorStep, hact, heval, oracleB]
  refine ⟨?_, ?_, ?_, ?_⟩ <;> simp only [hA, hB] <;> decide

/-- C9: the overall confidence is an integer between 0 and 100; it is 0
when all four finding lists are empty and otherwise equals the capped
rounded weighted formula with the fixed weights 0.3 for patterns, 0.4 for
trends, 0.2 for risks and 0.1 for opportunities over 0.4 times the total
finding count. -/
theorem C9_confidence_formula (p t r o : ℕ) :
    (0 ≤ calculateConfidence p t r o ∧ calculateConfidence p t r o ≤ 100)
    ∧ (p + t + r + o = 0 → calculateConfidence p t r o = 0)
    ∧ (p + t + r + o ≠ 0 →
        calculateConfidence p t r o =
          min 100 ⌊(100 * (0.3 * (p:ℚ) + 0.4 * (t:ℚ) + 0.2 * (r:ℚ) + 0.1 * (o:ℚ)))
            / (0.4 * ((p:ℚ) + (t:ℚ) + (r:ℚ) + (o:ℚ))) + 1/2⌋) := by
  by_cases h0 : p + t + r + o = 0
  · refine ⟨?_, fun _ => ?_, fun hn => absurd h0 hn⟩ <;> simp [calculateConfidence, h0]
  · have htot : (0:ℚ) < ((p + t + r + o : ℕ) : ℚ) := by
      exact_mod_cast Nat.pos_of_ne_zero h0
    have hval : calculateConfidence p t r o =
        min 100 (jsRound (((p:ℚ) * 0.3 + (t:ℚ) * 0.4 + (r:ℚ) * 0.2 + (o:ℚ) * 0.1)
          / (((p + t + r + o : ℕ) : ℚ) * 0.4) * 100)) := by
      simp [calculateConfidence, h0]
    have harg : (0:ℚ) ≤ ((p:ℚ) * 0.3 + (t:ℚ) * 0.4 + (r:ℚ) * 0.2 + (o:ℚ) * 0.1)
        / (((p + t + r + o : ℕ) : ℚ) * 0.4) * 100 := by
      apply mul_nonneg _ (by norm_num)
      apply div_nonneg
      · have hp : (0:ℚ) ≤ (p:ℚ) := Nat.cast_nonneg p
        have ht : (0:ℚ) ≤ (t:ℚ) := Nat.cast_nonneg t
        have hr : (0:ℚ) ≤ (r:ℚ) := Nat.cast_nonneg r
        have ho : (0:ℚ) ≤ (o:ℚ) := Nat.cast_nonneg o
        nlinarith
      · nlinarith
    refine ⟨⟨?_, ?_⟩, fun h => absurd h h0, fun _ => ?_⟩
    · rw [hval]
      refine le_min (by norm_num) ?_
      rw [jsRound]
      refine Int.le_floor.mpr ?_
      rw [Int.cast_zero]
      linarith
    · rw [hval]
      exact min_le_left _ _
    · rw [hval, jsRound]
      congr 2
      push_cast
      ring

/-- Witness for C9 at one pattern, two trends, three risks and four
opportunities, where the formula yields 53. -/
theorem C9_confidence_formula_witness :
    1 + 2 + 3 + 4 ≠ 0 ∧ calculateConfidence 1 2 3 4 = 53 := by
  have h := (C9_confidence_formula 1 2 3 4).2.2 (by decide)
  refine ⟨by decide, ?_⟩
  rw [h]
  have harg : (100 * (0.3 * ((1:ℕ):ℚ) + 0.4 * ((2:ℕ):ℚ) + 0.2 * ((3:ℕ):ℚ) + 0.1 * ((4:ℕ):ℚ)))
      / (0.4 * (((1:ℕ):ℚ) + ((2:ℕ):ℚ) + ((3:ℕ):ℚ) + ((4:ℕ):ℚ))) + 1/2 = 53 := by
    push_cast
    norm_num
  rw [harg]
  have hfl : (⌊(53:ℚ)⌋ : ℤ) = 53 := by
    exact_mod_cast Int.floor_intCast (α := ℚ) 53
  rw [hfl]
  norm_num

/-- The pairwise product sum is symmetric. -/
theorem dotProd_comm (a b : List ℝ) : dotProd a b = dotProd b a := by
  induction a generalizing b with
  | nil => cases b <;> simp [dotProd]
  | cons x xs ih =>
    cases b with
    | nil => simp [dotProd]
    | cons y ys => simp [dotProd, ih ys, mul_comm]

/-- The product sum of a series with itself is non-negative. -/
theorem dotProd_self_nonneg (a : List ℝ) : 0 ≤ dotProd a a := by
  induction a with
  | nil => simp [dotProd]
  | cons x xs ih =>
    simp only [dotProd]
    have := mul_self_nonneg x
    linarith

/-- Pearson correlation is symmetric in its two series. -/
theorem pearson_comm (xs ys : List ℝ) : pearson xs ys = pearson ys xs := by
  simp only [pearson]
  rw [Nat.min_comm ys.length xs.length]
  generalize centered (xs.take (min xs.length ys.length)) = a
  generalize centered (ys.take (min xs.length ys.length)) = b
  rw [dotProd_comm b a, mul_comm (Real.sqrt (dotProd b b)) (Real.sqrt (dotProd a a))]

/-- Pearson correlation of a series with itself is one as soon as the
centered product sum does not vanish. -/
theorem pearson_self (xs : List ℝ) (h : dotProd (centered xs) (centered xs) ≠ 0) :
    pearson xs xs = 1 := by
  simp only [pearson, min_self, List.take_length]
  rw [Real.mul_self_sqrt (dotProd_self_nonneg _)]
  exact div_self h

/-- C7: over any asset list whose series all have non-vanishing centered
product sums (the sufficient-samples condition), the correlation matrix is
symmetric and every diagonal cell is one. -/
theorem C7_matrix_symmetric_unit_diagonal (series : List (List ℝ))
    (hvar : ∀ s ∈ series, dotProd (centered s) (centered s) ≠ 0)
    (i j : ℕ) (hi : i < series.length) (hj : j < series.length) :
    ((correlationMatrix series).getD i []).getD j 0
        = ((correlationMatrix series).getD j []).getD i 0
    ∧ ((correlationMatrix series).getD i []).getD i 0 = 1 := by
  have hcell : ∀ (a b : ℕ) (ha : a < series.length) (hb : b < series.length),
      ((correlationMatrix series).getD a []).getD b 0
        = pearson (series.get ⟨a, ha⟩) (series.get ⟨b, hb⟩) := by
    intro a b ha hb
    have h1 : (correlationMatrix series).getD a []
        = series.map (fun y => pearson (series.get ⟨a, ha⟩) y) := by
      simp only [correlationMatrix, List.getD_eq_getElem?_getD, List.getElem?_map]
      rw [List.getElem?_eq_getElem ha]
      simp [List.get_eq_getElem]
    rw [h1]
    simp only [List.getD_eq_getElem?_getD, List.getElem?_map]
    rw [List.getElem?_eq_getElem hb]
    simp [List.get_eq_getElem]
  refine ⟨?_, ?_⟩
  · rw [hcell i j hi hj, hcell j i hj hi, pearson_comm]
  · rw [hcell i i hi hi]
    exact pearson_self _ (hvar _ (List.get_mem series i hi))

/-- Witness for C7 at a concrete pair of non-constant series: the two
off-diagonal cells agree and the first diagonal cell is one. -/
theorem C7_matrix_symmetric_unit_diagonal_witness :
    (∀ s ∈ wSeries, dotProd (centered s) (centered s) ≠ 0)
    ∧ ((correlationMatrix wSeries).getD 0 []).getD 1 0
        = ((correlationMatrix wSeries).getD 1 []).getD 0 0
    ∧ ((correlationMatrix wSeries).getD 0 []).getD 0 0 = 1 := by
  have hv : ∀ s ∈ wSeries, dotProd (centered s) (centered s) ≠ 0 := by
    intro s hs
    simp only [wSeries, List.mem_cons, List.not_mem_nil, or_false] at hs
    rcases hs with h | h <;> subst h <;> norm_num [dotProd, centered, seriesMean]
  have h01 := C7_matrix_symmetric_unit_diagonal wSeries hv 0 1
    (by norm_num [wSeries]) (by norm_num [wSeries])
  exact ⟨hv, h01.1, h01.2⟩

end SituationMonitor
